import Mathlib

/-
Shallow embedding of the py-boy Game Boy emulator (src/: utils.py,
constants.py, mmu.py, interrupts.py, ppu.py, ops.py, cpu.py, pyboy.py).

Modelling conventions:
- Python integers are unbounded, so plain `int` values are modelled as `Int`
  (addresses, the program counter, the stack pointer, cycle counters) or as
  `Nat` where the source only ever produces non-negative values (data bytes,
  register halves, bank numbers).
- The 0x10000-entry `memory` list and the ROM byte list are modelled as total
  functions `Int → Nat`; an element assignment `memory[a] = d` becomes the
  functional update `Mmu.write_mem`.  All addresses exercised by the theorems
  below are in range, so Python's IndexError/negative-index behaviour is never
  reached by any statement proved here.
- Methods that mutate `self` become functions from the state to the new state;
  debug `print` calls and logging, which do not change emulator state, are
  dropped.
-/

namespace PyBoy

/-! ## utils.py -/

/-- Bit test, from utils.is_bit_set: (data & (1 << position)) > 0. -/
def is_bit_set (data position : Nat) : Bool :=
  data &&& (1 <<< position) > 0

/-- Bit set, from utils.set_bit. -/
def set_bit (data position : Nat) : Nat :=
  data ||| (1 <<< position)

/-- Bitwise negation for unsigned values, from utils.bit_negate (bits=8). -/
def bit_negate (data : Nat) (bits : Nat := 8) : Nat :=
  (1 <<< bits) - 1 - data

/-- Bit clear, from utils.reset_bit. -/
def reset_bit (data position : Nat) : Nat :=
  data &&& bit_negate (1 <<< position)

/-- Bit value as 0/1, from utils.get_bit_val. -/
def get_bit_val (data position : Nat) : Nat :=
  if data &&& (1 <<< position) > 0 then 1 else 0

/-- The five interrupt sources, from utils.Interrupt (an IntEnum). -/
inductive Interrupt where
  | V_BLANK
  | LCD_STAT
  | TIMER
  | SERIAL
  | JOYPAD
deriving DecidableEq

/-- IntEnum value of an interrupt source (its bit position in IF/IE). -/
def Interrupt.value : Interrupt → Nat
  | .V_BLANK => 0
  | .LCD_STAT => 1
  | .TIMER => 2
  | .SERIAL => 3
  | .JOYPAD => 4

/-- LCD modes, from utils.LcdMode. -/
inductive LcdMode where
  | H_BLANK
  | V_BLANK
  | SPRITE_SEARCH
  | LCD_TRANSFER
deriving DecidableEq

/-- Enum value of an LCD mode. -/
def LcdMode.value : LcdMode → Nat
  | .H_BLANK => 0
  | .V_BLANK => 1
  | .SPRITE_SEARCH => 2
  | .LCD_TRANSFER => 3

/-! ## constants.py -/

def SCREEN_WIDTH : Nat := 160
def SCREEN_HEIGHT : Nat := 144

/-- math.floor(4194304 / 59.7275) computed exactly; the float quotient is
about 70224.0007 so the floor is 70224. -/
def MAX_CYCLES_PER_FRAME : Int := 70224

def PROGRAM_COUNTER_INIT : Int := 0x100
def STACK_POINTER_INIT : Int := 0xFFFE

def DIVIDER_REGISTER_ADDR : Int := 0xFF04
def TIMER_ADDR : Int := 0xFF05

def LCD_CONTROL_ADDR : Int := 0xFF40
def LCD_STATUS_ADDR : Int := 0xFF41
def CURRENT_SCANLINE_ADDR : Int := 0xFF44
def CURRENT_SCANLINE_COMPARE_ADDR : Int := 0xFF45

def MAX_SCANLINE_VALUE : Nat := 153

def CYCLES_PER_SCANLINE : Int := 456

def BACKGROUND_SCROLL_Y : Int := 0xFF42
def BACKGROUND_SCROLL_X : Int := 0xFF43
def WINDOW_POS_Y : Int := 0xFF4A
def WINDOW_POS_X : Int := 0xFF4B

def COLOR_PALLETTE_ADDR : Int := 0xFF47

def INTERRUPT_ENABLE_ADDR : Int := 0xFFFF
def INTERRUPT_FLAG_ADDR : Int := 0xFF0F

/-- GB_COLORS dictionary; the source raises KeyError on other ids, which is
unreachable because every computed color id is below 4. -/
def GB_COLORS (color : Nat) : Nat :=
  if color = 0 then 0xFFFFFF
  else if color = 1 then 0xCCCCCC
  else if color = 2 then 0x777777
  else if color = 3 then 0x000000
  else 0

/-! ## mmu.py -/

/-- MMU state, from mmu.Mmu.  `memory` models the 0x10000-entry list,
`rom` models the loaded cartridge bytes (rom.data). -/
structure Mmu where
  memory : Int → Nat
  ram_banks : Int → Nat
  enable_ram : Bool
  oam_access : Bool
  color_pallette_access : Bool
  vram_access : Bool
  rom_bank : Nat
  mbc1 : Bool
  mbc2 : Bool
  number_of_rom_banks : Nat
  rom : Int → Nat

/-- Element assignment memory[addr] = data. -/
def Mmu.write_mem (m : Mmu) (addr : Int) (data : Nat) : Mmu :=
  { m with memory := fun a => if a = addr then data else m.memory a }

/-- Mmu.read_byte. -/
def Mmu.read_byte (m : Mmu) (addr : Int) : Nat :=
  if ((0xFE00 ≤ addr ∧ addr ≤ 0xFE9F) ∧ m.oam_access = false) ∨
     ((0x8000 ≤ addr ∧ addr ≤ 0x9FFF) ∧ m.vram_access = false) then
    0xFF
  else if 0x4000 ≤ addr ∧ addr < 0x8000 then
    m.rom ((addr - 0x4000) + (m.rom_bank : Int) * 0x4000)
  else
    m.memory addr

/-- Mmu._handle_banking.  The out-of-range branch in the source is an empty
TODO ("we need to mask ... pass"), so it performs no clamping; writes to
[0x4000, 0x6000) only print. -/
def Mmu._handle_banking (m : Mmu) (addr : Int) (data : Nat) : Mmu :=
  if addr < 0x2000 then
    if data &&& 0xF = 0xA then { m with enable_ram := true }
    else { m with enable_ram := false }
  else if 0x2000 ≤ addr ∧ addr < 0x4000 then
    if m.mbc1 then
      let new_rom_bank := data &&& 0x1F
      { m with rom_bank := new_rom_bank }
    else m
  else if 0x4000 ≤ addr ∧ addr < 0x6000 then m
  else m

/-- Mmu.write_byte.  Writes to the ECHO region only print when RAM is
enabled; writes to 0xFEA0-0xFEFF are dropped. -/
def Mmu.write_byte (m : Mmu) (addr : Int) (data : Nat) : Mmu :=
  if ((0xFE00 ≤ addr ∧ addr ≤ 0xFE9F) ∧ m.oam_access = false) ∨
     ((0x8000 ≤ addr ∧ addr ≤ 0x9FFF) ∧ m.vram_access = false) then
    m
  else if addr < 0x8000 then
    m._handle_banking addr data
  else if 0xE000 ≤ addr ∧ addr < 0xFE00 then
    m
  else if 0xFEA0 ≤ addr ∧ addr < 0xFF00 then
    m
  else if addr = DIVIDER_REGISTER_ADDR ∨ addr = CURRENT_SCANLINE_ADDR then
    m.write_mem addr 0
  else
    m.write_mem addr (data &&& 0xFF)

/-- Mmu.update_scanline: memory[0xFF44] += 1 (no masking). -/
def Mmu.update_scanline (m : Mmu) : Mmu :=
  m.write_mem CURRENT_SCANLINE_ADDR (m.memory CURRENT_SCANLINE_ADDR + 1)

/-- Mmu.reset_scanline. -/
def Mmu.reset_scanline (m : Mmu) : Mmu :=
  m.write_mem CURRENT_SCANLINE_ADDR 0

def Mmu.restrict_oam_access (m : Mmu) : Mmu := { m with oam_access := false }

def Mmu.open_oam_access (m : Mmu) : Mmu := { m with oam_access := true }

def Mmu.restrict_vram_access (m : Mmu) : Mmu := { m with vram_access := false }

def Mmu.open_vram_access (m : Mmu) : Mmu := { m with vram_access := true }

/-- Characterizes the addresses at which Mmu.write_byte stores the data byte
and Mmu.read_byte returns the stored byte: external/work RAM, the
I/O-HRAM-IE range except the clear-on-write DIV and LY registers, and the
VRAM/OAM windows while their access gate is open.  Everywhere else a write
is diverted (ROM/banking control) or dropped (gated windows, ECHO, the
unusable region, DIV/LY).  Used to state when a stack push lands. -/
def Mmu.stack_byte_writable (m : Mmu) (a : Int) : Prop :=
  (0xA000 ≤ a ∧ a < 0xE000) ∨
  (0xFF00 ≤ a ∧ a ≤ 0xFFFF ∧ a ≠ 0xFF04 ∧ a ≠ 0xFF44) ∨
  ((0x8000 ≤ a ∧ a ≤ 0x9FFF) ∧ m.vram_access = true) ∨
  ((0xFE00 ≤ a ∧ a ≤ 0xFE9F) ∧ m.oam_access = true)

instance (m : Mmu) (a : Int) : Decidable (m.stack_byte_writable a) := by
  unfold Mmu.stack_byte_writable
  infer_instance

/-! ## interrupts.py -/

namespace InterruptControl

/-- The interrupts sorted by IntEnum value, as produced by
interrupts.get_servicable_interrupt's sorted list. -/
def sorted_interrupts : List Interrupt :=
  [.V_BLANK, .LCD_STAT, .TIMER, .SERIAL, .JOYPAD]

/-- InterruptControl.is_interrupt_enabled. -/
def is_interrupt_enabled (m : Mmu) (interrupt : Interrupt) : Bool :=
  is_bit_set (m.read_byte INTERRUPT_ENABLE_ADDR) interrupt.value

/-- InterruptControl.is_interrupt_requested. -/
def is_interrupt_requested (m : Mmu) (interrupt : Interrupt) : Bool :=
  is_bit_set (m.read_byte INTERRUPT_FLAG_ADDR) interrupt.value

/-- InterruptControl.get_servicable_interrupt. -/
def get_servicable_interrupt (m : Mmu) : Option Interrupt :=
  sorted_interrupts.find? fun i =>
    is_interrupt_enabled m i && is_interrupt_requested m i

/-- InterruptControl.request_interrupt. -/
def request_interrupt (m : Mmu) (interrupt : Interrupt) : Mmu :=
  m.write_byte INTERRUPT_FLAG_ADDR
    (set_bit (m.read_byte INTERRUPT_FLAG_ADDR) interrupt.value)

end InterruptControl

/-! ## ppu.py -/

namespace LcdControl

/-- LcdControl.is_lcd_enabled (LCDC bit 7). -/
def is_lcd_enabled (m : Mmu) : Bool :=
  is_bit_set (m.read_byte LCD_CONTROL_ADDR) 7

/-- LcdControl.get_background_tile_data_area. -/
def get_background_tile_data_area (m : Mmu) : Int :=
  if is_bit_set (m.read_byte LCD_CONTROL_ADDR) 4 then 0x8000 else 0x9000

/-- LcdControl.is_background_tile_data_addressing_signed. -/
def is_background_tile_data_addressing_signed (m : Mmu) : Bool :=
  !(is_bit_set (m.read_byte LCD_CONTROL_ADDR) 4)

/-- LcdControl.is_background_enabled (LCDC bit 0). -/
def is_background_enabled (m : Mmu) : Bool :=
  is_bit_set (m.read_byte LCD_CONTROL_ADDR) 0

/-- LcdControl.get_background_tile_map_area (LCDC bit 3). -/
def get_background_tile_map_area (m : Mmu) : Int :=
  if is_bit_set (m.read_byte LCD_CONTROL_ADDR) 3 then 0x9C00 else 0x9800

/-- LcdControl.is_window_enabled (LCDC bit 5). -/
def is_window_enabled (m : Mmu) : Bool :=
  is_bit_set (m.read_byte LCD_CONTROL_ADDR) 5

/-- LcdControl.get_window_tile_map_area (LCDC bit 6). -/
def get_window_tile_map_area (m : Mmu) : Int :=
  if is_bit_set (m.read_byte LCD_CONTROL_ADDR) 6 then 0x9C00 else 0x9800

/-- LcdControl.is_sprites_enabled (LCDC bit 1). -/
def is_sprites_enabled (m : Mmu) : Bool :=
  is_bit_set (m.read_byte LCD_CONTROL_ADDR) 1

/-- LcdControl.get_sprite_height (LCDC bit 2). -/
def get_sprite_height (m : Mmu) : Int :=
  if is_bit_set (m.read_byte LCD_CONTROL_ADDR) 2 then 16 else 8

/-- LcdControl.get_sprite_tile_data_area. -/
def get_sprite_tile_data_area (_ : Mmu) : Int := 0x8000

end LcdControl

/-- Return value of LcdStatus.get_mode.  The source accidentally returns
one-element tuples (trailing commas) for modes 0-2 and the bare enum member
for mode 3; equality between the two shapes is always False in Python, which
this type reproduces. -/
inductive LcdModeResult where
  | tup (m : LcdMode)
  | plain (m : LcdMode)
deriving DecidableEq

namespace LcdStatus

/-- LcdStatus.get_status. -/
def get_status (m : Mmu) : Nat :=
  m.read_byte LCD_STATUS_ADDR

/-- LcdStatus.set_status. -/
def set_status (m : Mmu) (status : Nat) : Mmu :=
  m.write_byte LCD_STATUS_ADDR status

/-- LcdStatus.get_mode.  Modes 0-2 are returned as 1-tuples by the source;
the unreachable fall-through (lcd_mode not in 0..3) returns Python None,
modelled as Option.none. -/
def get_mode (m : Mmu) : Option LcdModeResult :=
  let msb := get_bit_val (m.read_byte LCD_STATUS_ADDR) 1
  let lsb := get_bit_val (m.read_byte LCD_STATUS_ADDR) 0
  let lcd_mode := msb <<< 1 ||| lsb
  if lcd_mode = 0 then some (.tup .H_BLANK)
  else if lcd_mode = 1 then some (.tup .V_BLANK)
  else if lcd_mode = 2 then some (.tup .SPRITE_SEARCH)
  else if lcd_mode = 3 then some (.plain .LCD_TRANSFER)
  else none

/-- LcdStatus.set_mode: ORs the mode value into the status register. -/
def set_mode (m : Mmu) (mode : LcdMode) : Mmu :=
  let val := mode.value
  let current_status := get_status m
  set_status m (current_status ||| val)

/-- LcdStatus.is_hblank_stat_interrupt_enabled (STAT bit 3). -/
def is_hblank_stat_interrupt_enabled (m : Mmu) : Bool :=
  is_bit_set (m.read_byte LCD_STATUS_ADDR) 3

/-- LcdStatus.is_vblank_stat_interrupt_enabled (STAT bit 4). -/
def is_vblank_stat_interrupt_enabled (m : Mmu) : Bool :=
  is_bit_set (m.read_byte LCD_STATUS_ADDR) 4

/-- LcdStatus.is_oam_stat_interrupt_enabled (STAT bit 5). -/
def is_oam_stat_interrupt_enabled (m : Mmu) : Bool :=
  is_bit_set (m.read_byte LCD_STATUS_ADDR) 5

/-- LcdStatus.update_coincidence_flag (STAT bit 2). -/
def update_coincidence_flag (m : Mmu) (val : Bool) : Mmu :=
  let status := get_status m
  let status := if val then set_bit status 2 else reset_bit status 2
  set_status m status

end LcdStatus

namespace SpriteAttributes

/-- SpriteAttributes.is_sprite_under_background (bit 7 of the attribute). -/
def is_sprite_under_background (register : Nat) : Bool :=
  is_bit_set register 7

/-- SpriteAttributes.is_y_flip (bit 6). -/
def is_y_flip (register : Nat) : Bool :=
  is_bit_set register 6

/-- SpriteAttributes.is_x_flip (bit 5). -/
def is_x_flip (register : Nat) : Bool :=
  is_bit_set register 5

end SpriteAttributes

/-- PPU-private state, from ppu.Ppu: the scanline cycle counter and the
160x144 screen array (modelled as a function from x and y to the stored
color).  The shared Mmu is passed explicitly to every method. -/
structure Ppu where
  scanline_counter : Int
  screen : Nat → Nat → Nat

/-- Element assignment screen[x][y] = color. -/
def screen_update (s : Nat → Nat → Nat) (x y color : Nat) : Nat → Nat → Nat :=
  fun a b => if a = x ∧ b = y then color else s a b

namespace Ppu

/-- Ppu.get_current_scanline. -/
def get_current_scanline (m : Mmu) : Nat :=
  m.read_byte CURRENT_SCANLINE_ADDR

/-- Ppu.get_background_scroll_x. -/
def get_background_scroll_x (m : Mmu) : Nat :=
  m.read_byte BACKGROUND_SCROLL_X

/-- Ppu.get_background_scroll_y. -/
def get_background_scroll_y (m : Mmu) : Nat :=
  m.read_byte BACKGROUND_SCROLL_Y

/-- Ppu.get_window_position_x: the WX register minus 7; may be negative. -/
def get_window_position_x (m : Mmu) : Int :=
  (m.read_byte WINDOW_POS_X : Int) - 7

/-- Ppu.get_window_position_y. -/
def get_window_position_y (m : Mmu) : Nat :=
  m.read_byte WINDOW_POS_Y

/-- Ppu.should_draw_window. -/
def should_draw_window (m : Mmu) : Bool :=
  LcdControl.is_window_enabled m &&
    decide (get_window_position_y m ≤ get_current_scanline m)

/-- Ppu._get_color_from_id.  The source raises on a color id above 3, which
is unreachable (ids are two bits). -/
def _get_color_from_id (m : Mmu) (color_id : Nat) : Nat :=
  let pallette := m.read_byte COLOR_PALLETTE_ADDR
  let color :=
    if color_id = 3 then get_bit_val pallette 7 <<< 1 ||| get_bit_val pallette 6
    else if color_id = 2 then get_bit_val pallette 5 <<< 1 ||| get_bit_val pallette 4
    else if color_id = 1 then get_bit_val pallette 3 <<< 1 ||| get_bit_val pallette 2
    else if color_id = 0 then get_bit_val pallette 1 <<< 1 ||| get_bit_val pallette 0
    else 0
  GB_COLORS color

/-- Ppu._get_color. -/
def _get_color (m : Mmu) (tile_data_low tile_data_high bit : Nat) : Nat :=
  let least_significant_bit := get_bit_val tile_data_low bit
  let most_significant_bit := get_bit_val tile_data_high bit
  _get_color_from_id m (most_significant_bit <<< 1 ||| least_significant_bit)

/-- Ppu._get_tile_line_pixel. -/
def _get_tile_line_pixel (m : Mmu) (tile_identifier : Int) (offset : Nat) (x : Nat) : Nat :=
  let tile_data_addr := LcdControl.get_background_tile_data_area m
  let addr := tile_data_addr + tile_identifier * 16
  let tile_data_low := m.read_byte (addr + (offset : Int))
  let tile_data_high := m.read_byte (addr + (offset : Int) + 1)
  _get_color m tile_data_low tile_data_high x

/-- Ppu.get_background_tile_pixels: the generator is modelled as the list of
the SCREEN_WIDTH pixels it yields.  Python (7 - x) % 8 on ints is Euclidean
like Int.emod, so it is non-negative and mapping it to Nat is exact. -/
def get_background_tile_pixels (m : Mmu) (y : Nat) : List Nat :=
  (List.range SCREEN_WIDTH).map fun i =>
    let x : Int := (get_background_scroll_x m + i : Nat)
    let tile_map_addr :=
      if should_draw_window m then LcdControl.get_window_tile_map_area m
      else LcdControl.get_background_tile_map_area m
    let x : Int :=
      if should_draw_window m ∧ (i : Int) ≥ get_window_position_x m then
        (i : Int) - get_window_position_x m
      else x
    let x_offset := x / 8
    let y_offset : Int := (y / 8 : Nat) * 32
    let tile_identifier : Int := m.read_byte (tile_map_addr + x_offset + y_offset)
    let tile_identifier :=
      if LcdControl.is_background_tile_data_addressing_signed m then
        tile_identifier - 256
      else tile_identifier
    _get_tile_line_pixel m tile_identifier ((y % 8) * 2) ((7 - x) % 8).toNat

/-- Ppu.is_background_enabled. -/
def is_background_enabled (m : Mmu) : Bool :=
  LcdControl.is_background_enabled m

/-- Ppu.is_sprites_enabled. -/
def is_sprites_enabled (m : Mmu) : Bool :=
  LcdControl.is_sprites_enabled m

/-- Ppu._render_background: computes the pixel row for this scanline and
copies it into the screen array, guarded per pixel by
0 < current_scanline < SCREEN_HEIGHT.  Python (a - b) & 0xFF on ints equals
the Euclidean remainder modulo 256. -/
def _render_background (p : Ppu) (m : Mmu) : Ppu :=
  let current_scanline := get_current_scanline m
  let y_pos : Int :=
    if should_draw_window m then
      ((current_scanline : Int) - (get_window_position_y m : Int)) % 256
    else
      ((get_background_scroll_y m + current_scanline : Nat) : Int) % 256
  let pixels := get_background_tile_pixels m y_pos.toNat
  let step := fun (acc : (Nat → Nat → Nat) × Nat) (pixel : Nat) =>
    if current_scanline < SCREEN_HEIGHT ∧ current_scanline > 0 then
      (screen_update acc.1 acc.2 current_scanline pixel, acc.2 + 1)
    else acc
  { p with screen := (pixels.foldl step (p.screen, 0)).1 }

/-- Ppu._render_sprites: scans the 40 OAM entries and draws the 8 pixels of
any sprite row covering the current scanline, skipping transparent pixels,
off-screen pixels and behind-background pixels over a non-white pixel. -/
def _render_sprites (p : Ppu) (m : Mmu) : Ppu :=
  let oam_addr : Int := 0xFE00
  let current_scanline : Int := get_current_scanline m
  (List.range 40).foldl (fun p i =>
    let start_addr := oam_addr + (i : Int) * 4
    let y_position : Int := (m.read_byte start_addr : Int) - 16
    let x_position : Int := (m.read_byte (start_addr + 1) : Int) - 8
    let tile_idx : Int := m.read_byte (start_addr + 2)
    let attributes := m.read_byte (start_addr + 3)
    let sprite_height := LcdControl.get_sprite_height m
    if current_scanline ≥ y_position ∧ current_scanline < y_position + sprite_height then
      let line := (current_scanline - y_position) * 2
      let tile_line_addr := LcdControl.get_sprite_tile_data_area m + tile_idx * 16 + line
      let lo := m.read_byte tile_line_addr
      let hi := m.read_byte (tile_line_addr + 1)
      (List.range 8).foldl (fun p jr =>
        let j := 7 - jr
        let color := _get_color m lo hi j
        if color = 0xFFFFFF then p
        else
          let pixel_x : Int := (7 - j : Nat) + x_position
          if current_scanline < 0 ∨ current_scanline ≥ (SCREEN_HEIGHT : Int) ∨
             pixel_x < 0 ∨ pixel_x ≥ (SCREEN_WIDTH : Int) then p
          else if SpriteAttributes.is_sprite_under_background attributes ∧
                  p.screen pixel_x.toNat current_scanline.toNat ≠ 0xFFFFFF then p
          else
            { p with screen := screen_update p.screen pixel_x.toNat current_scanline.toNat color })
        p
    else p) p

/-- Ppu.draw_scanline. -/
def draw_scanline (p : Ppu) (m : Mmu) : Ppu :=
  let p := if is_background_enabled m then p._render_background m else p
  if is_sprites_enabled m then p._render_sprites m else p

/-- Ppu.update_lcd_status.  Note that the mode-2/mode-3 thresholds compare
the per-scanline counter with MAX_CYCLES_PER_FRAME (about 70224, the
per-frame budget) minus 80 and 252, exactly as the source does. -/
def update_lcd_status (p : Ppu) (m : Mmu) : Ppu × Mmu :=
  let scanline := m.read_byte CURRENT_SCANLINE_ADDR
  let scanline_compare := m.read_byte CURRENT_SCANLINE_COMPARE_ADDR
  if LcdControl.is_lcd_enabled m = false then
    let p := { p with scanline_counter := CYCLES_PER_SCANLINE }
    let m := m.reset_scanline
    let m := LcdStatus.set_mode m .V_BLANK
    let m := m.open_oam_access
    let m := m.open_vram_access
    (p, m)
  else
    let current_mode := LcdStatus.get_mode m
    let step : Mmu × Bool :=
      if scanline ≥ 144 then
        let m := LcdStatus.set_mode m .V_BLANK
        let m := m.open_oam_access
        let m := m.open_vram_access
        (m, LcdStatus.is_vblank_stat_interrupt_enabled m)
      else if p.scanline_counter ≥ MAX_CYCLES_PER_FRAME - 80 then
        let m := LcdStatus.set_mode m .SPRITE_SEARCH
        let m := m.restrict_oam_access
        let m := m.open_vram_access
        (m, LcdStatus.is_oam_stat_interrupt_enabled m)
      else if p.scanline_counter ≥ MAX_CYCLES_PER_FRAME - 80 - 172 then
        let m := LcdStatus.set_mode m .LCD_TRANSFER
        let m := m.restrict_oam_access
        let m := m.restrict_vram_access
        (m, false)
      else
        let m := LcdStatus.set_mode m .H_BLANK
        let m := m.open_oam_access
        let m := m.open_vram_access
        (m, LcdStatus.is_hblank_stat_interrupt_enabled m)
    let m := step.1
    let should_request_stat_interrupt := step.2
    let m :=
      if current_mode ≠ LcdStatus.get_mode m ∧ should_request_stat_interrupt = true then
        InterruptControl.request_interrupt m .LCD_STAT
      else m
    if scanline = scanline_compare then
      let m := LcdStatus.update_coincidence_flag m true
      let m := InterruptControl.request_interrupt m .LCD_STAT
      (p, m)
    else
      (p, LcdStatus.update_coincidence_flag m false)

/-- Ppu.update_graphics. -/
def update_graphics (p : Ppu) (m : Mmu) (cycles : Int) : Ppu × Mmu :=
  let pm := p.update_lcd_status m
  let p := pm.1
  let m := pm.2
  let p :=
    if LcdControl.is_lcd_enabled m then
      { p with scanline_counter := p.scanline_counter - cycles }
    else p
  if p.scanline_counter ≤ 0 then
    let p := { p with scanline_counter := CYCLES_PER_SCANLINE }
    let scanline := m.read_byte CURRENT_SCANLINE_ADDR
    let m := m.update_scanline
    if scanline = 144 then
      (p, InterruptControl.request_interrupt m .V_BLANK)
    else if scanline > MAX_SCANLINE_VALUE then
      (p, m.reset_scanline)
    else
      (p.draw_scanline m, m)
  else
    (p, m)

end Ppu

/-! ## ops.py -/

/-- Operation categories, from ops.Operation.  Only the constructors whose
handlers are transcribed below are listed together with the ones referenced
by the transcribed control flow (DI/EI appear in _toggle_interrupts_enabled). -/
inductive Operation where
  | LD
  | NOP
  | HALT
  | STOP
  | DI
  | EI
  | JP
deriving DecidableEq

/-- Opcode metadata, from ops.OpCode (alt_cycles defaults to cycles). -/
structure OpCode where
  code : Nat
  mnemonic : String
  operation : Operation
  len : Nat
  cycles : Int
  alt_cycles : Int

/-- Lookup in ops.opcodes_map, transcribed for the opcodes exercised by the
theorems in this development (a missing entry is a Python KeyError, and an
operation whose handler is not transcribed is mapped to none by execute). -/
def opcodes_map (code : Nat) : Option OpCode :=
  if code = 0x00 then some ⟨0x00, "NOP", .NOP, 1, 4, 4⟩
  else if code = 0xF3 then some ⟨0xF3, "DI", .DI, 1, 4, 4⟩
  else if code = 0xFB then some ⟨0xFB, "EI", .EI, 1, 4, 4⟩
  else none

/-! ## cpu.py -/

/-- Register pair, from cpu.RegisterPair. -/
structure RegisterPair where
  lo : Nat
  hi : Nat

/-- Property RegisterPair.value. -/
def RegisterPair.value (r : RegisterPair) : Nat :=
  (r.hi <<< 8 ||| r.lo) &&& 0xFFFF

/-- CPU state, from cpu.Cpu; the shared Mmu is passed to each method
explicitly.  The debug counters and the last printed opcode bookkeeping that
only feed print statements are dropped; last_opcode is kept because
_toggle_interrupts_enabled reads it. -/
structure Cpu where
  af : RegisterPair
  bc : RegisterPair
  de : RegisterPair
  hl : RegisterPair
  program_counter : Int
  stack_pointer : Int
  interrupts_enabled : Bool
  will_enable_interrupts : Bool
  will_disable_interrupts : Bool
  halted : Bool
  last_opcode : Option OpCode

namespace Cpu

/-- Cpu._read_memory. -/
def _read_memory (m : Mmu) (addr : Int) : Nat :=
  m.read_byte addr

/-- Cpu._write_memory: the serial-output debugging print at 0xFF01 does not
change any state, so this is Mmu.write_byte. -/
def _write_memory (m : Mmu) (addr : Int) (data : Nat) : Mmu :=
  m.write_byte addr data

/-- Cpu._push_byte_to_stack: decrement SP, then write at the new SP. -/
def _push_byte_to_stack (c : Cpu) (m : Mmu) (byte : Nat) : Cpu × Mmu :=
  let c := { c with stack_pointer := c.stack_pointer - 1 }
  (c, _write_memory m c.stack_pointer byte)

/-- Cpu._pop_byte_from_stack: read at SP, then increment SP. -/
def _pop_byte_from_stack (c : Cpu) (m : Mmu) : Cpu × Nat :=
  let val := _read_memory m c.stack_pointer
  ({ c with stack_pointer := c.stack_pointer + 1 }, val)

/-- Cpu._push_word_to_stack: hi byte first, then lo byte. -/
def _push_word_to_stack (c : Cpu) (m : Mmu) (word : Nat) : Cpu × Mmu :=
  let lo := word &&& 0xFF
  let hi := word >>> 8
  let cm := _push_byte_to_stack c m hi
  _push_byte_to_stack cm.1 cm.2 lo

/-- Cpu._pop_word_from_stack: lo byte first, then hi byte. -/
def _pop_word_from_stack (c : Cpu) (m : Mmu) : Cpu × Nat :=
  let clo := _pop_byte_from_stack c m
  let chi := _pop_byte_from_stack clo.1 m
  (chi.1, (chi.2 <<< 8 ||| clo.2) &&& 0xFFFF)

/-- Cpu.service_interrupt. -/
def service_interrupt (c : Cpu) (m : Mmu) (interrupt : Interrupt) : Cpu × Mmu :=
  let c := { c with halted := false, interrupts_enabled := false }
  let interrupts_requested := _read_memory m INTERRUPT_FLAG_ADDR
  let interrupts_requested := reset_bit interrupts_requested interrupt.value
  let m := _write_memory m INTERRUPT_FLAG_ADDR interrupts_requested
  let cm := _push_word_to_stack c m (c.program_counter.toNat)
  let c := cm.1
  let m := cm.2
  let c :=
    match interrupt with
    | .V_BLANK => { c with program_counter := 0x40 }
    | .LCD_STAT => { c with program_counter := 0x48 }
    | .TIMER => { c with program_counter := 0x50 }
    | .SERIAL => { c with program_counter := 0x58 }
    | .JOYPAD => { c with program_counter := 0x60 }
  (c, m)

/-- Cpu._toggle_interrupts_enabled: applies a deferred DI/EI one instruction
late, keyed on the previous instruction (the prints are dropped). -/
def _toggle_interrupts_enabled (c : Cpu) : Cpu :=
  match c.last_opcode with
  | none => c
  | some last =>
    if last.operation = Operation.DI ∧ c.will_disable_interrupts = true then
      { c with will_disable_interrupts := false, interrupts_enabled := false }
    else if last.operation = Operation.EI ∧ c.will_enable_interrupts = true then
      { c with will_enable_interrupts := false, interrupts_enabled := true }
    else c

/-- Cpu._do_disable_interrupts.  The source body is
will_enable_interrupts = False (it never sets will_disable_interrupts). -/
def _do_disable_interrupts (c : Cpu) (opcode : OpCode) : Cpu × Int :=
  ({ c with will_enable_interrupts := false }, opcode.cycles)

/-- Cpu._do_enable_interrupts: will_enable_interrupts = True. -/
def _do_enable_interrupts (c : Cpu) (opcode : OpCode) : Cpu × Int :=
  ({ c with will_enable_interrupts := true }, opcode.cycles)

/-- Cpu._do_halt. -/
def _do_halt (c : Cpu) (opcode : OpCode) : Cpu × Int :=
  (if c.interrupts_enabled then { c with halted := true } else c, opcode.cycles)

/-- Cpu.execute.  Halted CPUs return 4 cycles immediately.  Otherwise fetch,
advance PC by plain increment, dispatch on the operation, then apply any
deferred interrupt toggle and record last_opcode.  Operations whose handlers
are not transcribed in this development yield none (the source dispatch for
them is not modelled; an unknown operation raises in the source). -/
def execute (c : Cpu) (m : Mmu) : Option (Cpu × Mmu × Int) :=
  if c.halted then some (c, m, 4)
  else
    match opcodes_map (_read_memory m c.program_counter) with
    | none => none
    | some opcode =>
      let c := { c with program_counter := c.program_counter + 1 }
      let dispatched : Option (Cpu × Mmu × Int) :=
        if opcode.operation = Operation.NOP then some (c, m, opcode.cycles)
        else if opcode.operation = Operation.DI then
          let r := c._do_disable_interrupts opcode
          some (r.1, m, r.2)
        else if opcode.operation = Operation.EI then
          let r := c._do_enable_interrupts opcode
          some (r.1, m, r.2)
        else if opcode.operation = Operation.HALT then
          let r := c._do_halt opcode
          some (r.1, m, r.2)
        else none
      match dispatched with
      | none => none
      | some (c, m, cycles) =>
        let c := c._toggle_interrupts_enabled
        let c := { c with last_opcode := some opcode }
        some (c, m, cycles)

end Cpu

/-! ## pyboy.py -/

/-- The whole-machine state stitched together by pyboy.PyBoy: the CPU and
the PPU share the single Mmu. -/
structure PyBoyState where
  cpu : Cpu
  ppu : Ppu
  mmu : Mmu

/-- One iteration of the inner loop of PyBoy.run: execute one instruction
and feed the returned cycle count to Ppu.update_graphics.  The loop performs
no interrupt polling and never calls Cpu.service_interrupt. -/
def PyBoyState.step (s : PyBoyState) : Option PyBoyState :=
  match s.cpu.execute s.mmu with
  | none => none
  | some (c, m, cycles) =>
    let pm := s.ppu.update_graphics m cycles
    some { cpu := c, ppu := pm.1, mmu := pm.2 }

/-- Runs two instructions back to back (a test harness composition used to
observe the one-instruction delay of DI/EI). -/
def exec2 (c : Cpu) (m : Mmu) : Option (Cpu × Mmu × Int) :=
  match Cpu.execute c m with
  | none => none
  | some (c, m, _) => Cpu.execute c m

/-! ## Concrete states used by the witnesses and counterexamples.
The flag fields follow the defaults installed by Mmu.__init__. -/

/-- An Mmu with the given memory contents and the constructor defaults for
every other field (RAM disabled, all access open, ROM bank 1, no MBC,
2 ROM banks, all-zero cartridge). -/
def testMmu (mem : Int → Nat) : Mmu :=
  { memory := mem
    ram_banks := fun _ => 0
    enable_ram := false
    oam_access := true
    color_pallette_access := true
    vram_access := true
    rom_bank := 1
    mbc1 := false
    mbc2 := false
    number_of_rom_banks := 2
    rom := fun _ => 0 }

/-- A CPU with zeroed registers, the given PC/SP/IME, and no pending
deferred toggles. -/
def testCpu (pc sp : Int) (ime : Bool) : Cpu :=
  { af := ⟨0, 0⟩
    bc := ⟨0, 0⟩
    de := ⟨0, 0⟩
    hl := ⟨0, 0⟩
    program_counter := pc
    stack_pointer := sp
    interrupts_enabled := ime
    will_enable_interrupts := false
    will_disable_interrupts := false
    halted := false
    last_opcode := none }

/-- A PPU with a fresh scanline budget and a blank screen. -/
def testPpu : Ppu :=
  { scanline_counter := CYCLES_PER_SCANLINE
    screen := fun _ _ => 0 }

/-- A PPU with the given scanline budget and a blank screen. -/
def testPpuAt (counter : Int) : Ppu :=
  { scanline_counter := counter
    screen := fun _ _ => 0 }

/-- C1 state: NOP at the reset PC, VBlank requested in IF, VBlank enabled in
IE, LCD enabled with background and sprites off. -/
def mC1 : Mmu :=
  testMmu fun a =>
    if a = 0xFF40 then 0x80 else if a = 0xFFFF then 1 else if a = 0xFF0F then 1 else 0

def cpuC1 : Cpu := testCpu 0x100 0xFFFE true

def stepC1 : Option PyBoyState := PyBoyState.step { cpu := cpuC1, ppu := testPpu, mmu := mC1 }

/-- The interrupt service routine applied by hand to the same C1 state. -/
def serviceC1 : Cpu × Mmu := Cpu.service_interrupt cpuC1 mC1 Interrupt.V_BLANK

/-- C2 state: LCD enabled (background and sprites off), LY = 143, IF = 0. -/
def mC2 : Mmu :=
  testMmu fun a => if a = 0xFF40 then 0x80 else if a = 0xFF44 then 143 else 0

/-- C2 amended-claim state: LCD enabled, LY = 144, IF = 0. -/
def mC2b : Mmu :=
  testMmu fun a => if a = 0xFF40 then 0x80 else if a = 0xFF44 then 144 else 0

/-- C3 state: LCD enabled (background and sprites off), LY = 153. -/
def mC3 : Mmu :=
  testMmu fun a => if a = 0xFF40 then 0x80 else if a = 0xFF44 then 153 else 0

/-- C4 state: LCD enabled, STAT = 0, LY = 0, LYC = 1, OAM currently gated. -/
def mC4 : Mmu :=
  { testMmu (fun a => if a = 0xFF40 then 0x80 else if a = 0xFF45 then 1 else 0) with
    oam_access := false }

/-- C5 DI state: DI at 0x100 followed by NOP, IME initially true. -/
def mDI : Mmu := testMmu fun a => if a = 0x100 then 0xF3 else 0

def cpuDI : Cpu := testCpu 0x100 0xFFFE true

/-- C5 EI state: EI at 0x100 followed by NOP, IME initially false. -/
def mEI : Mmu := testMmu fun a => if a = 0x100 then 0xFB else 0

def cpuEI : Cpu := testCpu 0x100 0xFFFE false

/-- C6 state: MBC1 cartridge with 2 ROM banks. -/
def mC6 : Mmu := { testMmu (fun _ => 0) with mbc1 := true }

/-- All-zero memory with default flags. -/
def mZero : Mmu := testMmu fun _ => 0

/-- C8 state: NOP everywhere, PC at the top of the address space. -/
def cpuC8 : Cpu := testCpu 0xFFFF 0xFFFE true

/-- C9 counterexample state: SP = 2, so the pushed bytes land in the ROM
region where writes are swallowed by the banking handler. -/
def cpuC9 : Cpu := testCpu 0x100 2 true

def pushedC9 : Cpu × Mmu := Cpu._push_word_to_stack cpuC9 mZero 0x1234

def poppedC9 : Cpu × Nat := Cpu._pop_word_from_stack pushedC9.1 pushedC9.2

/-! ## Helper lemmas about the embedding -/

@[simp]
theorem Mmu.write_mem_memory (m : Mmu) (a : Int) (d : Nat) (b : Int) :
    (m.write_mem a d).memory b = if b = a then d else m.memory b := rfl

@[simp]
theorem Mmu.write_mem_oam (m : Mmu) (a : Int) (d : Nat) :
    (m.write_mem a d).oam_access = m.oam_access := rfl

@[simp]
theorem Mmu.write_mem_vram (m : Mmu) (a : Int) (d : Nat) :
    (m.write_mem a d).vram_access = m.vram_access := rfl

@[simp]
theorem Mmu.open_oam_memory (m : Mmu) : m.open_oam_access.memory = m.memory := rfl

@[simp]
theorem Mmu.open_vram_memory (m : Mmu) : m.open_vram_access.memory = m.memory := rfl

@[simp]
theorem Mmu.restrict_oam_memory (m : Mmu) : m.restrict_oam_access.memory = m.memory := rfl

@[simp]
theorem Mmu.restrict_vram_memory (m : Mmu) : m.restrict_vram_access.memory = m.memory := rfl

/-- Reads outside the gated OAM/VRAM windows and outside the banked ROM
window return the stored byte. -/
theorem Mmu.read_byte_plain (m : Mmu) (a : Int) (h1 : 0xA000 ≤ a)
    (h2 : a < 0xE000 ∨ 0xFEA0 ≤ a) : m.read_byte a = m.memory a := by
  unfold Mmu.read_byte
  rw [if_neg, if_neg]
  · omega
  · rintro (⟨⟨hx, hy⟩, _⟩ | ⟨⟨hx, hy⟩, _⟩) <;> omega

/-- Writes to plain RAM or to an I/O address other than DIV and LY store
the masked data byte. -/
theorem Mmu.write_byte_plain (m : Mmu) (a : Int) (d : Nat) (h1 : 0xA000 ≤ a)
    (h2 : a < 0xE000 ∨ (0xFF00 ≤ a ∧ a ≠ 0xFF04 ∧ a ≠ 0xFF44)) :
    m.write_byte a d = m.write_mem a (d &&& 0xFF) := by
  unfold Mmu.write_byte
  rw [if_neg, if_neg, if_neg, if_neg, if_neg]
  · unfold DIVIDER_REGISTER_ADDR CURRENT_SCANLINE_ADDR
    omega
  · omega
  · omega
  · omega
  · rintro (⟨⟨hx, hy⟩, _⟩ | ⟨⟨hx, hy⟩, _⟩) <;> omega

/-- A writable stack-byte address is never in a closed gate window. -/
theorem Mmu.stack_byte_writable_not_gated (m : Mmu) (a : Int) (h : m.stack_byte_writable a) :
    ¬ (((0xFE00 ≤ a ∧ a ≤ 0xFE9F) ∧ m.oam_access = false) ∨
       ((0x8000 ≤ a ∧ a ≤ 0x9FFF) ∧ m.vram_access = false)) := by
  rcases h with ⟨h1, h2⟩ | ⟨h1, h2, h3, h4⟩ | ⟨⟨h1, h2⟩, hg⟩ | ⟨⟨h1, h2⟩, hg⟩ <;>
    rintro (⟨⟨c1, c2⟩, hc⟩ | ⟨⟨c1, c2⟩, hc⟩) <;>
      first
        | omega
        | (rw [hg] at hc; cases hc)

/-- At a writable stack-byte address, write_byte stores the masked byte. -/
theorem Mmu.write_byte_stores (m : Mmu) (a : Int) (d : Nat)
    (h : m.stack_byte_writable a) : m.write_byte a d = m.write_mem a (d &&& 0xFF) := by
  have hgate := m.stack_byte_writable_not_gated a h
  have hr1 : ¬ a < 0x8000 := by
    rcases h with ⟨h1, h2⟩ | ⟨h1, h2, h3, h4⟩ | ⟨⟨h1, h2⟩, hg⟩ | ⟨⟨h1, h2⟩, hg⟩ <;> omega
  have hr2 : ¬ (0xE000 ≤ a ∧ a < 0xFE00) := by
    rcases h with ⟨h1, h2⟩ | ⟨h1, h2, h3, h4⟩ | ⟨⟨h1, h2⟩, hg⟩ | ⟨⟨h1, h2⟩, hg⟩ <;> omega
  have hr3 : ¬ (0xFEA0 ≤ a ∧ a < 0xFF00) := by
    rcases h with ⟨h1, h2⟩ | ⟨h1, h2, h3, h4⟩ | ⟨⟨h1, h2⟩, hg⟩ | ⟨⟨h1, h2⟩, hg⟩ <;> omega
  have hr4 : ¬ (a = DIVIDER_REGISTER_ADDR ∨ a = CURRENT_SCANLINE_ADDR) := by
    unfold DIVIDER_REGISTER_ADDR CURRENT_SCANLINE_ADDR
    rcases h with ⟨h1, h2⟩ | ⟨h1, h2, h3, h4⟩ | ⟨⟨h1, h2⟩, hg⟩ | ⟨⟨h1, h2⟩, hg⟩ <;> omega
  unfold Mmu.write_byte
  rw [if_neg hgate, if_neg hr1, if_neg hr2, if_neg hr3, if_neg hr4]

/-- At a writable stack-byte address, read_byte returns the stored byte. -/
theorem Mmu.read_byte_stored (m : Mmu) (a : Int)
    (h : m.stack_byte_writable a) : m.read_byte a = m.memory a := by
  have hgate := m.stack_byte_writable_not_gated a h
  have hbank : ¬ (0x4000 ≤ a ∧ a < 0x8000) := by
    rcases h with ⟨h1, h2⟩ | ⟨h1, h2, h3, h4⟩ | ⟨⟨h1, h2⟩, hg⟩ | ⟨⟨h1, h2⟩, hg⟩ <;> omega
  unfold Mmu.read_byte
  rw [if_neg hgate, if_neg hbank]

/-- Storing a byte does not change which addresses are writable (the access
gates are untouched by write_mem). -/
theorem Mmu.stack_byte_writable_write_mem (m : Mmu) (b : Int) (d : Nat) (a : Int) :
    (m.write_mem b d).stack_byte_writable a ↔ m.stack_byte_writable a := Iff.rfl

/-- LcdStatus.get_status reads the stored STAT byte. -/
theorem LcdStatus.get_status_eq (m : Mmu) : LcdStatus.get_status m = m.memory 0xFF41 :=
  Mmu.read_byte_plain m LCD_STATUS_ADDR (by decide) (Or.inr (by decide))

/-- LcdStatus.set_status stores the masked STAT byte. -/
theorem LcdStatus.set_status_eq (m : Mmu) (s : Nat) :
    LcdStatus.set_status m s = m.write_mem 0xFF41 (s &&& 0xFF) :=
  Mmu.write_byte_plain m LCD_STATUS_ADDR s (by decide) (Or.inr (by decide))

/-- Requesting an interrupt stores the updated IF byte. -/
theorem InterruptControl.request_interrupt_eq (m : Mmu) (i : Interrupt) :
    InterruptControl.request_interrupt m i =
      m.write_mem 0xFF0F (set_bit (m.memory 0xFF0F) i.value &&& 0xFF) := by
  unfold InterruptControl.request_interrupt
  rw [Mmu.read_byte_plain m INTERRUPT_FLAG_ADDR (by decide) (Or.inr (by decide))]
  exact Mmu.write_byte_plain m _ _ (by decide) (Or.inr (by decide))

/-- The LCD-enabled bit only depends on the stored LCDC byte. -/
theorem LcdControl.is_lcd_enabled_congr (m m2 : Mmu)
    (h : m2.memory LCD_CONTROL_ADDR = m.memory LCD_CONTROL_ADDR) :
    LcdControl.is_lcd_enabled m2 = LcdControl.is_lcd_enabled m := by
  unfold LcdControl.is_lcd_enabled
  rw [Mmu.read_byte_plain m2 _ (by decide) (Or.inr (by decide)),
    Mmu.read_byte_plain m _ (by decide) (Or.inr (by decide)), h]

/-- With the LCD enabled, update_lcd_status returns the Ppu unchanged and
only writes the STAT and IF bytes. -/
theorem Ppu.update_lcd_status_enabled_frame (p : Ppu) (m : Mmu)
    (h : LcdControl.is_lcd_enabled m = true) :
    (p.update_lcd_status m).1 = p ∧
    ∀ a, a ≠ 0xFF41 → a ≠ 0xFF0F →
      ((p.update_lcd_status m).2).memory a = m.memory a := by
  unfold Ppu.update_lcd_status
  rw [if_neg (by simp [h])]
  constructor
  · dsimp only
    split <;> rfl
  · intro a ha1 ha2
    dsimp only
    simp only [LcdStatus.set_mode, LcdStatus.update_coincidence_flag,
      LcdStatus.set_status_eq, LcdStatus.get_status_eq,
      InterruptControl.request_interrupt_eq]
    repeat' split
    all_goals simp [ha1, ha2]

/-- With the LCD disabled, update_lcd_status resets the budget to 456 and
LY to 0, and the LCD stays disabled. -/
theorem Ppu.update_lcd_status_disabled (p : Ppu) (m : Mmu)
    (h : LcdControl.is_lcd_enabled m = false) :
    (p.update_lcd_status m).1.scanline_counter = CYCLES_PER_SCANLINE ∧
    ((p.update_lcd_status m).2).memory 0xFF44 = 0 ∧
    LcdControl.is_lcd_enabled ((p.update_lcd_status m).2) = false := by
  unfold Ppu.update_lcd_status
  rw [if_pos (by simp [h])]
  refine ⟨rfl, ?_, ?_⟩
  · simp [Mmu.reset_scanline, LcdStatus.set_mode, LcdStatus.set_status_eq,
      LcdStatus.get_status_eq, CURRENT_SCANLINE_ADDR]
  · dsimp only
    refine (LcdControl.is_lcd_enabled_congr m _ ?_).trans h
    simp [Mmu.reset_scanline, LcdStatus.set_mode, LcdStatus.set_status_eq,
      LcdStatus.get_status_eq, CURRENT_SCANLINE_ADDR, LCD_CONTROL_ADDR]

/-- Folding a function that never changes the accumulator is the identity. -/
theorem foldl_congr_id {α β : Type} (f : β → α → β) (l : List α) (init : β)
    (hf : ∀ acc x, f acc x = acc) : l.foldl f init = init := by
  induction l generalizing init with
  | nil => rfl
  | cons hd tl ih => rw [List.foldl_cons, hf, ih]

/-- A scanline counter is preserved by any fold whose step preserves it. -/
theorem foldl_counter_preserved {α : Type} (f : Ppu → α → Ppu) (l : List α) (p : Ppu)
    (hf : ∀ q x, (f q x).scanline_counter = q.scanline_counter) :
    (l.foldl f p).scanline_counter = p.scanline_counter := by
  induction l generalizing p with
  | nil => rfl
  | cons hd tl ih => rw [List.foldl_cons, ih, hf]

/-- Rendering the background changes only the screen. -/
theorem Ppu._render_background_counter (p : Ppu) (m : Mmu) :
    (p._render_background m).scanline_counter = p.scanline_counter := rfl

/-- Rendering the sprites changes only the screen. -/
theorem Ppu._render_sprites_counter (p : Ppu) (m : Mmu) :
    (p._render_sprites m).scanline_counter = p.scanline_counter := by
  unfold Ppu._render_sprites
  refine foldl_counter_preserved _ _ _ ?_
  intro q i
  dsimp only
  split
  · refine foldl_counter_preserved _ _ _ ?_
    intro q2 j
    dsimp only
    split
    · rfl
    · split
      · rfl
      · split <;> rfl
  · rfl

/-- Drawing a scanline changes only the screen. -/
theorem Ppu.draw_scanline_counter (p : Ppu) (m : Mmu) :
    (p.draw_scanline m).scanline_counter = p.scanline_counter := by
  unfold Ppu.draw_scanline
  split <;> split <;>
    simp [Ppu._render_sprites_counter, Ppu._render_background_counter]

/-- Setting bit 0 and masking to a byte always leaves bit 0 set. -/
theorem is_bit_set_set_bit_zero (f : Nat) : is_bit_set (set_bit f 0 &&& 0xFF) 0 = true := by
  have h1 : (1 : Nat) <<< 0 = 1 := rfl
  simp only [is_bit_set, set_bit, h1, decide_eq_true_eq]
  have h255 : (0xFF : Nat) = 2 ^ 8 - 1 := by norm_num
  rw [h255, Nat.and_pow_two_sub_one_eq_mod, Nat.and_one_is_mod]
  have hbit : (f ||| 1).testBit 0 = true := by
    rw [Nat.testBit_or]
    simp
  rw [Nat.testBit_zero] at hbit
  have hpar := of_decide_eq_true hbit
  omega

/-! ## Theorems -/

/-- Reassembling the two pushed bytes of a 16-bit word gives the word back. -/
theorem recompose_bytes (x : Nat) (hx : x ≤ 0xFFFF) :
    ((x >>> 8) <<< 8 ||| (x &&& 0xFF)) &&& 0xFFFF = x := by
  have h255 : (0xFF : Nat) = 2 ^ 8 - 1 := by norm_num
  have hffff : (0xFFFF : Nat) = 2 ^ 16 - 1 := by norm_num
  rw [h255, hffff, Nat.and_pow_two_sub_one_eq_mod, Nat.and_pow_two_sub_one_eq_mod,
    Nat.shiftRight_eq_div_pow, Nat.shiftLeft_eq]
  have hor : 2 ^ 8 * (x / 2 ^ 8) ||| x % 2 ^ 8 = 2 ^ 8 * (x / 2 ^ 8) + x % 2 ^ 8 :=
    (Nat.mul_add_lt_is_or (Nat.mod_lt _ (by norm_num)) _).symm
  rw [Nat.mul_comm (x / 2 ^ 8) (2 ^ 8), hor, Nat.div_add_mod, Nat.mod_eq_of_lt (by omega)]

/-- The high byte of a 16-bit word is unchanged by the byte mask. -/
theorem high_byte_masked (x : Nat) (hx : x ≤ 0xFFFF) : x >>> 8 &&& 0xFF = x >>> 8 := by
  have h255 : (0xFF : Nat) = 2 ^ 8 - 1 := by norm_num
  rw [h255, Nat.shiftRight_eq_div_pow]
  exact Nat.and_pow_two_sub_one_of_lt_two_pow (by omega)

/-- Masking to a byte twice equals masking once. -/
theorem low_byte_masked (x : Nat) : x &&& 0xFF &&& 0xFF = x &&& 0xFF := by
  rw [Nat.and_assoc]
  norm_num

/-- The deferred-IME bookkeeping never changes the program counter. -/
theorem Cpu.toggle_pc (c : Cpu) :
    (Cpu._toggle_interrupts_enabled c).program_counter = c.program_counter := by
  unfold Cpu._toggle_interrupts_enabled
  cases c.last_opcode with
  | none => rfl
  | some op =>
    dsimp only
    split
    · rfl
    · split <;> rfl

/-- A background-pass fold step never touches a screen row other than the
current scanline. -/
theorem bg_fold_preserves (cur x y : Nat) (hy : y ≠ cur) (l : List Nat) :
    ∀ s : (Nat → Nat → Nat) × Nat,
      ((l.foldl (fun acc pixel =>
        if cur < SCREEN_HEIGHT ∧ cur > 0 then
          (screen_update acc.1 acc.2 cur pixel, acc.2 + 1)
        else acc) s).1) x y = s.1 x y := by
  induction l with
  | nil => intro s; rfl
  | cons hd tl ih =>
    intro s
    rw [List.foldl_cons, ih]
    split
    · simp [screen_update, hy]
    · rfl

/-- C1: the emulator's per-instruction driver step (PyBoy.run) does not
perform the interrupt service sequence even though a VBlank interrupt is
pending in IF, enabled in IE, and IME is true: after executing one NOP the
IME flag is still set, PC has only advanced to 0x101, SP is untouched and
the IF bit is still set — while Cpu.service_interrupt applied to the same
state (dead code, never called by the driver) would clear IME, clear the IF
bit, push PC and jump to vector 0x40. -/
theorem pyboy_step_does_not_service_pending_interrupt :
    InterruptControl.get_servicable_interrupt mC1 = some Interrupt.V_BLANK ∧
    cpuC1.interrupts_enabled = true ∧
    (stepC1.map fun s => s.cpu.interrupts_enabled) = some true ∧
    (stepC1.map fun s => s.cpu.program_counter) = some 0x101 ∧
    (stepC1.map fun s => s.cpu.stack_pointer) = some 0xFFFE ∧
    (stepC1.map fun s => is_bit_set (s.mmu.memory INTERRUPT_FLAG_ADDR) 0) = some true ∧
    serviceC1.1.program_counter = 0x40 ∧
    serviceC1.1.interrupts_enabled = false ∧
    is_bit_set (serviceC1.2.memory INTERRUPT_FLAG_ADDR) 0 = false ∧
    serviceC1.2.memory 0xFFFD = 0x01 ∧
    serviceC1.2.memory 0xFFFC = 0x00 ∧
    serviceC1.1.stack_pointer = 0xFFFC := by
  decide

/-- C2 counterexample: starting from LY = 143 with the LCD enabled and a
full scanline budget, feeding 456 cycles advances LY to 144 but does NOT set
IF bit 0 — the source requests VBlank only when the pre-advance LY already
equals 144. -/
theorem vblank_not_requested_when_ly_becomes_144 :
    ((Ppu.update_graphics testPpu mC2 456).2).memory CURRENT_SCANLINE_ADDR = 144 ∧
    is_bit_set (((Ppu.update_graphics testPpu mC2 456).2).memory INTERRUPT_FLAG_ADDR) 0 = false := by
  decide

/-- C3 counterexample: from a state satisfying the claimed invariant
(LY = 153 ≤ 153, LCD enabled), one PPU step of 456 cycles leaves LY = 154 at
the resulting instruction boundary, violating 0 ≤ LY ≤ 153. -/
theorem ly_reaches_154_at_instruction_boundary :
    mC3.memory CURRENT_SCANLINE_ADDR = 153 ∧
    ¬ ((Ppu.update_graphics testPpu mC3 456).2).memory CURRENT_SCANLINE_ADDR ≤ 153 := by
  decide

/-- C4: with the LCD enabled, LY = 0 and the scanline budget at its full
456, the source leaves the STAT mode bits at 0 (HBlank) and OPENS OAM
access, because its mode-2/mode-3 thresholds compare the 456-cycle budget
against MAX_CYCLES_PER_FRAME − 80 ≈ 70144 — the claim (and the source's own
comment describing the 456-dot breakdown) requires mode 2 with OAM gated. -/
theorem mode_stays_hblank_at_full_budget :
    ((Ppu.update_lcd_status (testPpuAt 456) mC4).2).memory LCD_STATUS_ADDR &&& 3 = 0 ∧
    ((Ppu.update_lcd_status (testPpuAt 456) mC4).2).oam_access = true := by
  decide

/-- C5: executing DI and then a following NOP never clears IME — the DI
handler assigns will_enable_interrupts := false instead of scheduling a
disable, so IME is still true two instructions later (the EI half behaves as
claimed: IME is unchanged right after EI and becomes true after the next
instruction). -/
theorem di_never_clears_ime :
    ((exec2 cpuDI mDI).map fun r => r.1.interrupts_enabled) = some true ∧
    ((exec2 cpuDI mDI).map fun r => r.1.will_disable_interrupts) = some false ∧
    ((Cpu.execute cpuEI mEI).map fun r => r.1.interrupts_enabled) = some false ∧
    ((exec2 cpuEI mEI).map fun r => r.1.interrupts_enabled) = some true := by
  decide

/-- C6: in MBC1 mode, writing 0x00 to 0x2000 selects ROM bank 0 (no
remapping of 0 to 1), and writing 0x1F on a 2-bank cartridge selects bank 31
(no clamping — the out-of-range branch in the source is an empty TODO). -/
theorem mbc1_bank_zero_not_remapped_and_unclamped :
    (mC6.write_byte 0x2000 0x00).rom_bank = 0 ∧
    (mC6.write_byte 0x2000 0x1F).rom_bank = 31 ∧
    mC6.number_of_rom_banks = 2 := by
  decide

/-- C7 counterexample: reading 0xFEA0 from a state whose stored byte there
is 0 returns 0, not the claimed 0xFF. -/
theorem unusable_region_read_returns_stored_zero :
    mZero.read_byte 0xFEA0 ≠ 0xFF := by
  decide

/-- C8 counterexample: executing the NOP at PC = 0xFFFF advances the program
counter to 0x10000 — the fetch increment is not reduced modulo 2^16, so the
claimed 16-bit bound on PC fails. -/
theorem pc_increments_past_16_bits :
    ((Cpu.execute cpuC8 mZero).map fun r => r.1.program_counter) = some 0x10000 ∧
    ¬ (0x10000 : Int) ≤ 0xFFFF := by
  decide

/-- C9 counterexample: with SP = 2 the pushed bytes land in the ROM region,
where write_byte diverts the data to the banking handler; pushing 0x1234 and
popping returns 0 (the bytes read back from untouched memory), not 0x1234,
even though SP is restored. -/
theorem push_pop_returns_wrong_value_in_rom_region :
    poppedC9.2 = 0 ∧ poppedC9.2 ≠ 0x1234 ∧ poppedC9.1.stack_pointer = cpuC9.stack_pointer := by
  decide

/-- C2 amended: with the LCD enabled and the budget exhausted by the step,
the budget refills to 456 and LY advances by 1; the VBlank interrupt is
requested when the PRE-advance LY equals 144 (so LY reads 145 afterwards
with IF bit 0 set), and the wrap to 0 happens on the step whose pre-advance
LY exceeds 153. -/
theorem vblank_timing_amended (p : Ppu) (m : Mmu) (cycles : Int)
    (hen : LcdControl.is_lcd_enabled m = true)
    (hc : p.scanline_counter - cycles ≤ 0) :
    (Ppu.update_graphics p m cycles).1.scanline_counter = CYCLES_PER_SCANLINE ∧
    (m.memory CURRENT_SCANLINE_ADDR = 144 →
      ((Ppu.update_graphics p m cycles).2).memory CURRENT_SCANLINE_ADDR = 145 ∧
      is_bit_set (((Ppu.update_graphics p m cycles).2).memory INTERRUPT_FLAG_ADDR) 0 = true) ∧
    (m.memory CURRENT_SCANLINE_ADDR > 153 →
      ((Ppu.update_graphics p m cycles).2).memory CURRENT_SCANLINE_ADDR = 0) := by
  obtain ⟨hp, hmem⟩ := Ppu.update_lcd_status_enabled_frame p m hen
  have hen2 : LcdControl.is_lcd_enabled (p.update_lcd_status m).2 = true :=
    (LcdControl.is_lcd_enabled_congr m _
      (hmem LCD_CONTROL_ADDR (by decide) (by decide))).trans hen
  have hscan : ((p.update_lcd_status m).2).read_byte CURRENT_SCANLINE_ADDR =
      m.memory CURRENT_SCANLINE_ADDR := by
    rw [Mmu.read_byte_plain _ _ (by decide) (Or.inr (by decide)),
      hmem CURRENT_SCANLINE_ADDR (by decide) (by decide)]
  have h44 : ((p.update_lcd_status m).2).memory CURRENT_SCANLINE_ADDR =
      m.memory CURRENT_SCANLINE_ADDR := hmem CURRENT_SCANLINE_ADDR (by decide) (by decide)
  unfold Ppu.update_graphics
  dsimp only
  rw [hp, if_pos hen2]
  dsimp only
  rw [if_pos hc, hscan]
  unfold Mmu.update_scanline
  rw [h44]
  simp only [CURRENT_SCANLINE_ADDR, INTERRUPT_FLAG_ADDR, MAX_SCANLINE_VALUE,
    CYCLES_PER_SCANLINE] at hmem h44 hscan ⊢
  refine ⟨?_, ?_, ?_⟩
  · split
    · rfl
    · split
      · rfl
      · simp [Ppu.draw_scanline_counter]
  · intro h144
    rw [if_pos h144]
    dsimp only
    rw [InterruptControl.request_interrupt_eq]
    constructor
    · simp only [Mmu.write_mem_memory, Interrupt.value]
      norm_num
      omega
    · simp only [Mmu.write_mem_memory, Interrupt.value]
      norm_num
      exact is_bit_set_set_bit_zero _
  · intro hgt
    rw [if_neg (by omega), if_pos (by omega)]
    dsimp only
    unfold Mmu.reset_scanline
    simp [CURRENT_SCANLINE_ADDR]

/-- C2 amended witness at LY = 144 with a full budget and 456 cycles. -/
theorem vblank_timing_amended_witness :
    LcdControl.is_lcd_enabled mC2b = true ∧
    testPpu.scanline_counter - 456 ≤ 0 ∧
    ((Ppu.update_graphics testPpu mC2b 456).1.scanline_counter = CYCLES_PER_SCANLINE ∧
      (mC2b.memory CURRENT_SCANLINE_ADDR = 144 →
        ((Ppu.update_graphics testPpu mC2b 456).2).memory CURRENT_SCANLINE_ADDR = 145 ∧
        is_bit_set (((Ppu.update_graphics testPpu mC2b 456).2).memory INTERRUPT_FLAG_ADDR) 0 =
          true) ∧
      (mC2b.memory CURRENT_SCANLINE_ADDR > 153 →
        ((Ppu.update_graphics testPpu mC2b 456).2).memory CURRENT_SCANLINE_ADDR = 0)) :=
  ⟨by decide, by decide, vblank_timing_amended testPpu mC2b 456 (by decide) (by decide)⟩

/-- C3 amended: LY stays within [0, 154] across a PPU step (the value 154 is
reachable, see the counterexample, and is reset to 0 by the following
scanline advance). -/
theorem ly_bounded_by_154 (p : Ppu) (m : Mmu) (cycles : Int)
    (h : m.memory CURRENT_SCANLINE_ADDR ≤ 154) :
    ((Ppu.update_graphics p m cycles).2).memory CURRENT_SCANLINE_ADDR ≤ 154 ∧
    (LcdControl.is_lcd_enabled m = true → p.scanline_counter - cycles ≤ 0 →
      m.memory CURRENT_SCANLINE_ADDR = 154 →
      ((Ppu.update_graphics p m cycles).2).memory CURRENT_SCANLINE_ADDR = 0) := by
  cases hlcd : LcdControl.is_lcd_enabled m with
  | false =>
    obtain ⟨hcounter, h44, hen2⟩ := Ppu.update_lcd_status_disabled p m hlcd
    unfold Ppu.update_graphics
    dsimp only
    rw [if_neg (show ¬ LcdControl.is_lcd_enabled (p.update_lcd_status m).2 = true by
      simp [hen2])]
    rw [if_neg (show ¬ (p.update_lcd_status m).1.scanline_counter ≤ 0 by
      rw [hcounter]; decide)]
    dsimp only
    refine ⟨?_, fun h1 => absurd h1 Bool.false_ne_true⟩
    simp only [CURRENT_SCANLINE_ADDR]
    rw [h44]
    omega
  | true =>
    obtain ⟨hp, hmem⟩ := Ppu.update_lcd_status_enabled_frame p m hlcd
    have hen2 : LcdControl.is_lcd_enabled (p.update_lcd_status m).2 = true :=
      (LcdControl.is_lcd_enabled_congr m _
        (hmem LCD_CONTROL_ADDR (by decide) (by decide))).trans hlcd
    have hscan : ((p.update_lcd_status m).2).read_byte CURRENT_SCANLINE_ADDR =
        m.memory CURRENT_SCANLINE_ADDR := by
      rw [Mmu.read_byte_plain _ _ (by decide) (Or.inr (by decide)),
        hmem CURRENT_SCANLINE_ADDR (by decide) (by decide)]
    have h44 : ((p.update_lcd_status m).2).memory CURRENT_SCANLINE_ADDR =
        m.memory CURRENT_SCANLINE_ADDR := hmem CURRENT_SCANLINE_ADDR (by decide) (by decide)
    unfold Ppu.update_graphics
    dsimp only
    rw [hp, if_pos hen2]
    dsimp only
    by_cases hc : p.scanline_counter - cycles ≤ 0
    · rw [if_pos hc, hscan]
      unfold Mmu.update_scanline
      rw [h44]
      simp only [CURRENT_SCANLINE_ADDR, MAX_SCANLINE_VALUE] at hmem h44 hscan h ⊢
      constructor
      · split
        · rw [InterruptControl.request_interrupt_eq]
          simp only [Mmu.write_mem_memory]
          norm_num
          omega
        · split
          · unfold Mmu.reset_scanline
            simp [CURRENT_SCANLINE_ADDR]
          · dsimp only
            simp only [Mmu.write_mem_memory]
            norm_num
            omega
      · intro _ _ h154
        rw [if_neg (by omega), if_pos (by omega)]
        dsimp only
        unfold Mmu.reset_scanline
        simp [CURRENT_SCANLINE_ADDR]
    · rw [if_neg hc]
      dsimp only
      refine ⟨?_, fun _ hc2 _ => absurd hc2 hc⟩
      rw [h44]
      exact h

/-- C3 amended witness: the bound holds across a step from LY = 153, and the
LY = 154 boundary state steps back to 0. -/
theorem ly_bounded_by_154_witness :
    mC3.memory CURRENT_SCANLINE_ADDR ≤ 154 ∧
    (((Ppu.update_graphics testPpu mC3 456).2).memory CURRENT_SCANLINE_ADDR ≤ 154 ∧
      (LcdControl.is_lcd_enabled mC3 = true → testPpu.scanline_counter - 456 ≤ 0 →
        mC3.memory CURRENT_SCANLINE_ADDR = 154 →
        ((Ppu.update_graphics testPpu mC3 456).2).memory CURRENT_SCANLINE_ADDR = 0)) :=
  ⟨by decide, ly_bounded_by_154 testPpu mC3 456 (by decide)⟩

/-- C7 amended: reads from 0xFEA0-0xFEFF return the stored memory byte (not
a forced 0xFF), and writes there leave the MMU entirely unchanged. -/
theorem unusable_region_reads_stored_writes_dropped (m : Mmu) (a : Int) (d : Nat)
    (h1 : 0xFEA0 ≤ a) (h2 : a ≤ 0xFEFF) :
    m.read_byte a = m.memory a ∧ m.write_byte a d = m := by
  constructor
  · exact Mmu.read_byte_plain m a (by omega) (Or.inr (by omega))
  · unfold Mmu.write_byte
    rw [if_neg, if_neg, if_neg, if_pos]
    · omega
    · omega
    · omega
    · rintro (⟨⟨hx, hy⟩, _⟩ | ⟨⟨hx, hy⟩, _⟩) <;> omega

/-- C7 amended witness at 0xFEA0 on the all-zero state. -/
theorem unusable_region_witness :
    (0xFEA0 : Int) ≤ 0xFEA0 ∧ (0xFEA0 : Int) ≤ 0xFEFF ∧
    (mZero.read_byte 0xFEA0 = mZero.memory 0xFEA0 ∧ mZero.write_byte 0xFEA0 0x42 = mZero) :=
  ⟨by decide, by decide,
    unusable_region_reads_stored_writes_dropped mZero 0xFEA0 0x42 (by decide) (by decide)⟩

/-- C8 amended: PC and SP are plain unbounded integers — the fetch advances
PC by +1 with no reduction modulo 2^16 (so PC = 0xFFFF steps to 0x10000),
and a stack push moves SP by −1 with no wraparound. -/
theorem pc_sp_plain_arithmetic :
    (∀ (c : Cpu) (m : Mmu), c.halted = false →
        Cpu._read_memory m c.program_counter = 0x00 →
        (Cpu.execute c m).map (fun r => r.1.program_counter) = some (c.program_counter + 1)) ∧
    (∀ (c : Cpu) (m : Mmu) (b : Nat),
        (Cpu._push_byte_to_stack c m b).1.stack_pointer = c.stack_pointer - 1) := by
  constructor
  · intro c m hh hread
    unfold Cpu.execute
    rw [if_neg (by simp [hh]), hread]
    have hmap : opcodes_map 0x00 = some ⟨0x00, "NOP", .NOP, 1, 4, 4⟩ := rfl
    rw [hmap]
    dsimp only
    rw [if_pos rfl]
    dsimp only [Option.map]
    rw [Cpu.toggle_pc]
  · intro c m b
    rfl

/-- C8 amended witness: a NOP at PC = 0xFFFF advances PC to 0x10000, and a
push from SP = 0 moves SP to −1. -/
theorem pc_sp_plain_arithmetic_witness :
    cpuC8.halted = false ∧ Cpu._read_memory mZero cpuC8.program_counter = 0x00 ∧
    ((Cpu.execute cpuC8 mZero).map (fun r => r.1.program_counter) =
      some (cpuC8.program_counter + 1) ∧
    (Cpu._push_byte_to_stack (testCpu 0x100 0 true) mZero 0x12).1.stack_pointer =
      (testCpu 0x100 0 true).stack_pointer - 1) :=
  ⟨rfl, by decide,
    pc_sp_plain_arithmetic.1 cpuC8 mZero rfl (by decide),
    pc_sp_plain_arithmetic.2 (testCpu 0x100 0 true) mZero 0x12⟩

/-- C9 amended: whenever the two stack bytes land at addresses where
write_byte stores (external/work RAM, the I/O-HRAM-IE range except DIV and
LY, or an open VRAM/OAM window — which includes the reset stack at
SP = 0xFFFE) and x is 16-bit, the push writes the high byte at SP−1 and the
low byte at SP−2 and lowers SP by 2, and the following pop reads low then
high, returns exactly x and restores SP. -/
theorem push_pop_roundtrip_writable (c : Cpu) (m : Mmu) (x : Nat) (hx : x ≤ 0xFFFF)
    (h1 : m.stack_byte_writable (c.stack_pointer - 1))
    (h2 : m.stack_byte_writable (c.stack_pointer - 2)) :
    (Cpu._push_word_to_stack c m x).1.stack_pointer = c.stack_pointer - 2 ∧
    ((Cpu._push_word_to_stack c m x).2).memory (c.stack_pointer - 1) = x >>> 8 ∧
    ((Cpu._push_word_to_stack c m x).2).memory (c.stack_pointer - 2) = x &&& 0xFF ∧
    (Cpu._pop_word_from_stack (Cpu._push_word_to_stack c m x).1
        (Cpu._push_word_to_stack c m x).2).2 = x ∧
    (Cpu._pop_word_from_stack (Cpu._push_word_to_stack c m x).1
        (Cpu._push_word_to_stack c m x).2).1.stack_pointer = c.stack_pointer := by
  have h2a : m.stack_byte_writable (c.stack_pointer - 1 - 1) := by
    rw [show c.stack_pointer - 1 - 1 = c.stack_pointer - 2 from by omega]
    exact h2
  have h1a : m.stack_byte_writable (c.stack_pointer - 1 - 1 + 1) := by
    rw [show c.stack_pointer - 1 - 1 + 1 = c.stack_pointer - 1 from by omega]
    exact h1
  have h2b : (m.write_mem (c.stack_pointer - 1) (x >>> 8 &&& 0xFF)).stack_byte_writable
      (c.stack_pointer - 1 - 1) := h2a
  have h2c : ((m.write_mem (c.stack_pointer - 1) (x >>> 8 &&& 0xFF)).write_mem
      (c.stack_pointer - 1 - 1) (x &&& 0xFF &&& 0xFF)).stack_byte_writable
      (c.stack_pointer - 1 - 1) := h2a
  have h1c : ((m.write_mem (c.stack_pointer - 1) (x >>> 8 &&& 0xFF)).write_mem
      (c.stack_pointer - 1 - 1) (x &&& 0xFF &&& 0xFF)).stack_byte_writable
      (c.stack_pointer - 1 - 1 + 1) := h1a
  have epush : Cpu._push_word_to_stack c m x =
      ({ c with stack_pointer := c.stack_pointer - 1 - 1 },
        (m.write_mem (c.stack_pointer - 1) (x >>> 8 &&& 0xFF)).write_mem
          (c.stack_pointer - 1 - 1) (x &&& 0xFF &&& 0xFF)) := by
    unfold Cpu._push_word_to_stack Cpu._push_byte_to_stack Cpu._write_memory
    dsimp only
    rw [Mmu.write_byte_stores _ _ _ h1, Mmu.write_byte_stores _ _ _ h2b]
  rw [epush]
  refine ⟨by dsimp only; omega, ?_, ?_, ?_, ?_⟩
  · dsimp only
    rw [Mmu.write_mem_memory, if_neg (by omega), Mmu.write_mem_memory, if_pos rfl]
    exact high_byte_masked x hx
  · dsimp only
    rw [Mmu.write_mem_memory, if_pos (by omega)]
    exact low_byte_masked x
  · unfold Cpu._pop_word_from_stack Cpu._pop_byte_from_stack Cpu._read_memory
    dsimp only
    rw [Mmu.read_byte_stored _ _ h2c, Mmu.read_byte_stored _ _ h1c]
    rw [Mmu.write_mem_memory]
    rw [if_neg (show c.stack_pointer - 1 - 1 + 1 ≠ c.stack_pointer - 1 - 1 by omega)]
    rw [Mmu.write_mem_memory,
      if_pos (show c.stack_pointer - 1 - 1 + 1 = c.stack_pointer - 1 by omega)]
    rw [Mmu.write_mem_memory, if_pos rfl]
    rw [low_byte_masked, high_byte_masked x hx]
    exact recompose_bytes x hx
  · unfold Cpu._pop_word_from_stack Cpu._pop_byte_from_stack
    dsimp only
    omega

/-- C9 amended witness at the reset stack SP = 0xFFFE (HRAM region),
x = 0xABCD. -/
theorem push_pop_roundtrip_writable_witness :
    (0xABCD : Nat) ≤ 0xFFFF ∧
    mZero.stack_byte_writable ((testCpu 0x100 0xFFFE true).stack_pointer - 1) ∧
    mZero.stack_byte_writable ((testCpu 0x100 0xFFFE true).stack_pointer - 2) ∧
    ((Cpu._push_word_to_stack (testCpu 0x100 0xFFFE true) mZero 0xABCD).1.stack_pointer =
        (testCpu 0x100 0xFFFE true).stack_pointer - 2 ∧
      ((Cpu._push_word_to_stack (testCpu 0x100 0xFFFE true) mZero 0xABCD).2).memory
          ((testCpu 0x100 0xFFFE true).stack_pointer - 1) = 0xABCD >>> 8 ∧
      ((Cpu._push_word_to_stack (testCpu 0x100 0xFFFE true) mZero 0xABCD).2).memory
          ((testCpu 0x100 0xFFFE true).stack_pointer - 2) = 0xABCD &&& 0xFF ∧
      (Cpu._pop_word_from_stack
          (Cpu._push_word_to_stack (testCpu 0x100 0xFFFE true) mZero 0xABCD).1
          (Cpu._push_word_to_stack (testCpu 0x100 0xFFFE true) mZero 0xABCD).2).2 = 0xABCD ∧
      (Cpu._pop_word_from_stack
          (Cpu._push_word_to_stack (testCpu 0x100 0xFFFE true) mZero 0xABCD).1
          (Cpu._push_word_to_stack (testCpu 0x100 0xFFFE true) mZero 0xABCD).2).1.stack_pointer =
        (testCpu 0x100 0xFFFE true).stack_pointer) :=
  ⟨by decide, by decide, by decide,
    push_pop_roundtrip_writable (testCpu 0x100 0xFFFE true) mZero 0xABCD (by decide) (by decide)
      (by decide)⟩

/-- C10: with LY = 0 the background pass leaves the whole state (in
particular the framebuffer) unchanged, and in general a background pass can
only modify screen rows y with 0 < y < 144 equal to the current scanline, so
the top visible row is never drawn by the background pass. -/
theorem background_never_draws_top_row (p : Ppu) (m : Mmu)
    (h : Ppu.get_current_scanline m = 0) :
    p._render_background m = p ∧
    ∀ (q : Ppu) (m2 : Mmu) (x y : Nat),
      (q._render_background m2).screen x y ≠ q.screen x y →
      0 < Ppu.get_current_scanline m2 ∧ Ppu.get_current_scanline m2 < SCREEN_HEIGHT ∧
        y = Ppu.get_current_scanline m2 := by
  constructor
  · unfold Ppu._render_background
    dsimp only
    rw [foldl_congr_id _ _ _ (by intro acc px; rw [if_neg (by simp [h])])]
  · intro q m2 x y hne
    by_cases hcond : Ppu.get_current_scanline m2 < SCREEN_HEIGHT ∧
        Ppu.get_current_scanline m2 > 0
    · refine ⟨hcond.2, hcond.1, ?_⟩
      by_contra hy
      apply hne
      unfold Ppu._render_background
      dsimp only
      exact bg_fold_preserves _ x y hy _ _
    · exfalso
      apply hne
      unfold Ppu._render_background
      dsimp only
      rw [foldl_congr_id _ _ _ (by intro acc px; rw [if_neg hcond])]

/-- C10 witness on the all-zero state (whose LY is 0). -/
theorem background_never_draws_top_row_witness :
    Ppu.get_current_scanline mZero = 0 ∧ Ppu._render_background testPpu mZero = testPpu :=
  ⟨by decide, (background_never_draws_top_row testPpu mZero (by decide)).1⟩

end PyBoy
